import Mathlib

/-!
Shallow embedding of the ReadRabbit client (App component and AdminPage
component) and proofs about its saved-set management, dismiss-and-replace
reconciliation, persistence effects and error handling.
-/

/-- Article entity as described by the data model: id, title, url, source,
author, summary, topic list, integer read time, source type. Server-owned,
replaced wholesale on the client. -/
structure Article where
  id : Nat
  title : String
  url : String
  source : String
  author : String
  summary : String
  topics : List String
  read_time : Int
  source_type : String
deriving Repr, DecidableEq

/-- View mode of the main App: 'single' | 'cards' | 'feed'. -/
inductive ViewMode where
  | single
  | cards
  | feed
deriving Repr, DecidableEq

/-- Active tab of the main App: 'discover' | 'saved'. -/
inductive Tab where
  | discover
  | saved
deriving Repr, DecidableEq

/-- Backend requests the App can issue, as trace events. -/
inductive Request where
  | randomGet (count : Nat)
  | dismissPost (articleId : Nat)
deriving Repr, DecidableEq

/-- The App component state relevant to the claims: the displayed articles,
the saved articles, and the loading / error / shuffling / tab / view-mode /
single-index pieces of UI state. -/
structure AppState where
  articles : List Article
  savedArticles : List Article
  loading : Bool
  error : Option String
  shuffling : Bool
  activeTab : Tab
  viewMode : ViewMode
  singleIndex : Nat
deriving Repr, DecidableEq

/-- handleSave from the App component: membership toggle on the saved set.
If an article with the same id is already saved, every entry with that id is
filtered out; otherwise the article is appended. -/
def handleSave (article : Article) (savedArticles : List Article) : List Article :=
  let isAlreadySaved := savedArticles.any (fun a => a.id == article.id)
  if isAlreadySaved then
    savedArticles.filter (fun a => a.id != article.id)
  else
    savedArticles ++ [article]

/-- isArticleSaved from the App component: linear existence check by id. -/
def isArticleSaved (savedArticles : List Article) (articleId : Nat) : Bool :=
  savedArticles.any (fun a => a.id == articleId)

/-- The count used by fetchArticles: 1 in single view, 8 in feed view,
4 otherwise (cards). -/
def fetchCount (viewMode : ViewMode) : Nat :=
  if viewMode = ViewMode.single then 1 else if viewMode = ViewMode.feed then 8 else 4

/-- fetchArticles from the App component, as a state transition parameterised
by the network outcome (ok with the decoded article list, or an error message
covering both a network failure and the non-ok response path). On success it
stores the articles, resets singleIndex and clears the error; on failure it
stores the error message; either way loading and shuffling end false. The
returned trace holds the single GET /articles/random?count=N request issued. -/
def fetchArticlesRun (outcome : Except String (List Article)) (s : AppState) :
    AppState × List Request :=
  match outcome with
  | Except.ok arts =>
      ({ s with articles := arts, singleIndex := 0, error := none,
                loading := false, shuffling := false },
       [Request.randomGet (fetchCount s.viewMode)])
  | Except.error msg =>
      ({ s with error := some msg, loading := false, shuffling := false },
       [Request.randomGet (fetchCount s.viewMode)])

/-- The multi-card branch of handleDismiss applied to the previous article
list: if the replacement fetch returned a non-empty list, every entry whose id
equals the dismissed id is replaced by the first fetched article; if it
returned an empty list, setArticles is not called and the list is unchanged. -/
def handleDismissUpdate (articleId : Nat) (fetched : List Article)
    (prev : List Article) : List Article :=
  match fetched with
  | [] => prev
  | repl :: _ => prev.map (fun a => if a.id == articleId then repl else a)

/-- handleDismiss from the App component, parameterised by the outcomes of its
two awaited requests. It first issues POST /articles/(id)/dismiss; if that
await throws, the catch block only logs to the console and the state is
unchanged. Otherwise it issues GET /articles/random?count=1; if that throws,
again only a console log happens. On success, single view replaces the whole
list by the fetched one when non-empty, and the other views apply
handleDismissUpdate. The trace lists the requests issued in order. -/
def handleDismissRun (articleId : Nat)
    (dismissOutcome : Except String Unit)
    (fetchOutcome : Except String (List Article))
    (s : AppState) : AppState × List Request :=
  match dismissOutcome with
  | Except.error _ => (s, [Request.dismissPost articleId])
  | Except.ok _ =>
    match fetchOutcome with
    | Except.error _ =>
        (s, [Request.dismissPost articleId, Request.randomGet 1])
    | Except.ok fetched =>
        if s.viewMode = ViewMode.single then
          (if fetched.length > 0 then { s with articles := fetched } else s,
           [Request.dismissPost articleId, Request.randomGet 1])
        else
          ({ s with articles := handleDismissUpdate articleId fetched s.articles },
           [Request.dismissPost articleId, Request.randomGet 1])

/-- The screens the App render function can produce, in the order the early
returns appear in the code: the loading placeholder, the error screen (whose
Try Again button manually re-invokes fetchArticles), the admin page, the agent
page, and the main screen. -/
inductive Screen where
  | loadingScreen
  | errorRetryScreen (message : String)
  | adminScreen
  | agentScreen
  | mainScreen
deriving Repr, DecidableEq

/-- The App render function's screen choice: loading first, then the error
screen when error is non-null, then admin / agent toggles, else the main UI. -/
def appScreen (s : AppState) (showAdmin showAgent : Bool) : Screen :=
  if s.loading then Screen.loadingScreen
  else
    match s.error with
    | some m => Screen.errorRetryScreen m
    | none =>
        if showAdmin then Screen.adminScreen
        else if showAgent then Screen.agentScreen
        else Screen.mainScreen

/-- displayArticles from the App render: saved tab shows the saved set,
discover tab shows the fetched articles. -/
def displayArticles (s : AppState) : List Article :=
  if s.activeTab = Tab.saved then s.savedArticles else s.articles

/-- The index used by the saved tab's single view:
singleIndex % displayArticles.length. -/
def savedSingleViewIndex (arts : List Article) (singleIndex : Nat) : Nat :=
  singleIndex % arts.length

/-- The saved tab's single-view element access,
displayArticles[singleIndex % displayArticles.length], which rendering guards
by displayArticles.length > 0. -/
def savedSingleViewAccess (arts : List Article) (singleIndex : Nat) : Option Article :=
  arts[savedSingleViewIndex arts singleIndex]?

/-- A concrete article with a given id, used for witnesses and
counterexamples. -/
def mkArticle (n : Nat) : Article :=
  { id := n, title := "", url := "", source := "", author := "", summary := "",
    topics := [], read_time := 0, source_type := "" }

example : handleSave (mkArticle 1) [mkArticle 1, mkArticle 2] = [mkArticle 2] := by decide
example : handleSave (mkArticle 3) [mkArticle 1] = [mkArticle 1, mkArticle 3] := by decide
example : handleDismissUpdate 1 [mkArticle 9] [mkArticle 1, mkArticle 2]
    = [mkArticle 9, mkArticle 2] := by decide

/-! Browser localStorage and the persistence effects of the App component. -/

/-- Browser localStorage as a map from keys to optional string values. -/
def Store : Type := String → Option String

/-- localStorage.setItem. -/
def setItem (key value : String) (store : Store) : Store :=
  fun k => if k = key then some value else store k

/-- localStorage.getItem. -/
def getItem (key : String) (store : Store) : Option String := store key

/-- The single storage key used by the App component. -/
def savedKey : String := "readrabbit_saved"

/-- Hexadecimal digit character, for JSON control-character escapes. -/
def hexDigit (n : Nat) : Char :=
  if n < 10 then Char.ofNat (48 + n) else Char.ofNat (87 + n)

/-- JSON string escaping for one character, modelling JSON.stringify:
quote, backslash and the common control characters get two-character escapes,
other control characters a \u00XX escape, anything else is kept. -/
def escapeJsonChar (c : Char) : String :=
  if c = '"' then "\\\""
  else if c = '\\' then "\\\\"
  else if c = '\n' then "\\n"
  else if c = '\r' then "\\r"
  else if c = '\t' then "\\t"
  else if c.toNat < 32 then
    "\\u00" ++ String.mk [hexDigit (c.toNat / 16), hexDigit (c.toNat % 16)]
  else String.mk [c]

/-- JSON serialization of a string, modelling JSON.stringify. -/
def jsonString (s : String) : String :=
  "\"" ++ String.join (s.toList.map escapeJsonChar) ++ "\""

/-- JSON serialization of a string array, modelling JSON.stringify. -/
def jsonStringArray (xs : List String) : String :=
  "[" ++ String.intercalate "," (xs.map jsonString) ++ "]"

/-- JSON serialization of one article object, modelling JSON.stringify with
the fields in the data model's order. -/
def jsonArticle (a : Article) : String :=
  "\x7b\"id\":" ++ toString a.id ++
  ",\"title\":" ++ jsonString a.title ++
  ",\"url\":" ++ jsonString a.url ++
  ",\"source\":" ++ jsonString a.source ++
  ",\"author\":" ++ jsonString a.author ++
  ",\"summary\":" ++ jsonString a.summary ++
  ",\"topics\":" ++ jsonStringArray a.topics ++
  ",\"read_time\":" ++ toString a.read_time ++
  ",\"source_type\":" ++ jsonString a.source_type ++ "\x7d"

/-- JSON.stringify(savedArticles): the serialized blob persisted under the
storage key. -/
def stringifySaved (articles : List Article) : String :=
  "[" ++ String.intercalate "," (articles.map jsonArticle) ++ "]"

/-- The persistence effect run whenever savedArticles changes:
localStorage.setItem of the key 'readrabbit_saved' with the JSON
serialization of the saved set. -/
def persistSavedEffect (savedArticles : List Article) (store : Store) : Store :=
  setItem savedKey (stringifySaved savedArticles) store

/-- The mount-time load effect: read the storage key and, when present,
decode it (JSON.parse, modelled by the decode parameter) into the saved set;
the initial state otherwise stays the empty list. -/
def loadSavedOnMount (decode : String → List Article) (store : Store) : List Article :=
  match getItem savedKey store with
  | some saved => decode saved
  | none => []

/-- The two mount effects in order: the load effect fixes savedArticles, then
the persistence effect writes its serialization back. Returns the saved set
and the storage after both effects. -/
def mountEffects (decode : String → List Article) (store : Store) :
    List Article × Store :=
  let sa := loadSavedOnMount decode store
  (sa, persistSavedEffect sa store)

/-- A save toggle and the persistence effect it triggers: handleSave updates
savedArticles and the effect hook writes the new serialization. -/
def handleSaveStep (article : Article) (savedArticles : List Article)
    (store : Store) : List Article × Store :=
  let sa := handleSave article savedArticles
  (sa, persistSavedEffect sa store)

/-! The AdminPage component: state and the handleManualSave operation. -/

/-- The manual add-article form of the AdminPage (emptyArticle's shape):
title, url, source, author, summary, topic list, optional read time. -/
structure ManualForm where
  title : String
  url : String
  source : String
  author : String
  summary : String
  topics : List String
  read_time : Option Int
deriving Repr, DecidableEq

/-- emptyArticle from AdminPage: the blank manual form. -/
def emptyArticle : ManualForm :=
  { title := "", url := "", source := "", author := "", summary := "",
    topics := [], read_time := none }

/-- Backend requests the AdminPage can issue, as trace events. -/
inductive AdminRequest where
  | postArticles (body : ManualForm)
  | getStats
  | getArticles (limit : Nat)
deriving Repr, DecidableEq

/-- JavaScript's String.prototype.trim, modelled on the character list:
strip leading and trailing whitespace. -/
def jsTrim (s : String) : String :=
  String.mk (((s.toList.dropWhile Char.isWhitespace).reverse.dropWhile
    Char.isWhitespace).reverse)

/-- JavaScript's (read_time || null): a null or zero read time becomes null. -/
def orNull (read_time : Option Int) : Option Int :=
  match read_time with
  | some v => if v = 0 then none else some v
  | none => none

/-- The AdminPage component state relevant to handleManualSave. -/
structure AdminState where
  url : String
  loading : Bool
  error : Option String
  success : Option String
  articles : List Article
  stats : Option Nat
  manualForm : ManualForm
deriving Repr, DecidableEq

/-- handleManualSave from AdminPage, parameterised by the POST outcome. When
title or url is blank after trimming, it only sets the error message and
returns before any request. Otherwise it issues POST /articles with the form
(read_time coerced through || null); on failure the thrown message lands in
error; on success it sets the success message, resets the form, and triggers
fetchStats and fetchArticles (GET /admin/stats, GET /articles?limit=100),
whose later responses are outside this step. The trace lists the requests
issued. -/
def handleManualSave (postOutcome : Except String Unit) (s : AdminState) :
    AdminState × List AdminRequest :=
  if jsTrim s.manualForm.title = "" ∨ jsTrim s.manualForm.url = "" then
    ({ s with error := some "Title and URL are required" }, [])
  else
    let body : ManualForm := { s.manualForm with read_time := orNull s.manualForm.read_time }
    match postOutcome with
    | Except.error msg =>
        ({ s with loading := false, error := some msg },
         [AdminRequest.postArticles body])
    | Except.ok _ =>
        ({ s with loading := false, error := none,
                  success := some ("Added: " ++ s.manualForm.title),
                  manualForm := emptyArticle },
         [AdminRequest.postArticles body, AdminRequest.getStats,
          AdminRequest.getArticles 100])

/-- saveAll: folding handleSave over a sequence of articles, modelling a
sequence of save clicks. -/
def saveAll (articles : List Article) (saved : List Article) : List Article :=
  articles.foldl (fun acc a => handleSave a acc) saved

/-! Helper lemmas about handleSave. -/

/-- When no saved entry carries the article's id, handleSave appends. -/
theorem handleSave_of_not_saved (article : Article) (saved : List Article)
    (h : ∀ a ∈ saved, a.id ≠ article.id) :
    handleSave article saved = saved ++ [article] := by
  have hany : saved.any (fun a => a.id == article.id) = false := by
    rw [List.any_eq_false]
    intro a ha
    simpa using h a ha
  simp [handleSave, hany]

/-- When some saved entry carries the article's id, handleSave filters the id
out. -/
theorem handleSave_of_saved (article : Article) (saved : List Article)
    (h : ∃ a ∈ saved, a.id = article.id) :
    handleSave article saved = saved.filter (fun a => a.id != article.id) := by
  have hany : saved.any (fun a => a.id == article.id) = true := by
    rw [List.any_eq_true]
    obtain ⟨a, ha, hid⟩ := h
    exact ⟨a, ha, by simpa using hid⟩
  simp [handleSave, hany]

/-- C1: handleSave preserves the no-duplicate-ids invariant of the saved set:
whenever the saved articles have pairwise-distinct ids, so does the result of
handleSave; moreover when an entry with the article's id already exists, no
new entry is inserted (every resulting entry was already saved). -/
theorem handleSave_preserves_unique_ids (article : Article) (saved : List Article)
    (h : (saved.map Article.id).Nodup) :
    ((handleSave article saved).map Article.id).Nodup ∧
    ((∃ a ∈ saved, a.id = article.id) →
      ∀ a ∈ handleSave article saved, a ∈ saved) := by
  constructor
  · by_cases hmem : ∃ a ∈ saved, a.id = article.id
    · rw [handleSave_of_saved article saved hmem]
      exact List.Nodup.sublist ((List.filter_sublist saved).map Article.id) h
    · push_neg at hmem
      rw [handleSave_of_not_saved article saved hmem]
      rw [List.map_append, List.nodup_append]
      refine ⟨h, by simp, ?_⟩
      intro x hx
      simp only [List.map_cons, List.map_nil, List.mem_singleton]
      intro hcon
      obtain ⟨a, ha, rfl⟩ := List.mem_map.mp hx
      exact hmem a ha hcon
  · intro hmem a ha
    rw [handleSave_of_saved article saved hmem] at ha
    exact List.mem_of_mem_filter ha

/-- C1 witness: a concrete saved set with distinct ids stays duplicate-free
after a save. -/
theorem handleSave_preserves_unique_ids_witness :
    (([mkArticle 1].map Article.id).Nodup) ∧
    ((handleSave (mkArticle 2) [mkArticle 1]).map Article.id).Nodup :=
  ⟨by decide, (handleSave_preserves_unique_ids (mkArticle 2) [mkArticle 1] (by decide)).1⟩

/-- Folding handleSave over articles whose ids are fresh relative to the
accumulated saved set appends them all: nothing is evicted or dropped. -/
theorem saveAll_of_nodup (articles : List Article) :
    ∀ saved : List Article, (((saved ++ articles).map Article.id).Nodup) →
      saveAll articles saved = saved ++ articles := by
  induction articles with
  | nil => intro saved _; simp [saveAll]
  | cons a rest ih =>
      intro saved h
      have hdisj : (saved.map Article.id).Disjoint ((a :: rest).map Article.id) := by
        rw [List.map_append] at h
        exact List.disjoint_of_nodup_append h
      have hstep : handleSave a saved = saved ++ [a] := by
        apply handleSave_of_not_saved
        intro x hx hcon
        refine hdisj (List.mem_map_of_mem Article.id hx) ?_
        rw [hcon]
        exact List.mem_map_of_mem Article.id (List.mem_cons_self a rest)
      have hrest : (((saved ++ [a]) ++ rest).map Article.id).Nodup := by
        rw [List.append_assoc]
        simpa using h
      calc saveAll (a :: rest) saved = saveAll rest (handleSave a saved) := rfl
        _ = saveAll rest (saved ++ [a]) := by rw [hstep]
        _ = (saved ++ [a]) ++ rest := ih (saved ++ [a]) hrest
        _ = saved ++ a :: rest := by simp

/-- C7: the saved set has no size bound: saving n articles with
pairwise-distinct ids starting from the empty saved set retains all of them,
in order, and the result has exactly n entries. -/
theorem savedSet_no_size_bound (articles : List Article)
    (h : (articles.map Article.id).Nodup) :
    saveAll articles [] = articles ∧
    (saveAll articles []).length = articles.length := by
  have hall : saveAll articles [] = articles := by
    simpa using saveAll_of_nodup articles [] (by simpa using h)
  exact ⟨hall, by rw [hall]⟩

/-- C7 witness: three distinct articles saved in sequence are all retained. -/
theorem savedSet_no_size_bound_witness :
    (([mkArticle 1, mkArticle 2, mkArticle 3].map Article.id).Nodup) ∧
    saveAll [mkArticle 1, mkArticle 2, mkArticle 3] []
      = [mkArticle 1, mkArticle 2, mkArticle 3] ∧
    (saveAll [mkArticle 1, mkArticle 2, mkArticle 3] []).length = 3 :=
  ⟨by decide,
   (savedSet_no_size_bound [mkArticle 1, mkArticle 2, mkArticle 3] (by decide)).1,
   (savedSet_no_size_bound [mkArticle 1, mkArticle 2, mkArticle 3] (by decide)).2⟩

/-- C8: handleSave is a membership toggle and a double application is the
identity on membership: when the article's id is absent, one save appends it
and a second save removes every entry with that id, restoring the original
list; when the id is present, one save removes it and a second save re-adds
it, restoring membership. -/
theorem handleSave_double_toggle (article : Article) (saved : List Article) :
    ((∀ a ∈ saved, a.id ≠ article.id) →
      handleSave article (handleSave article saved) = saved) ∧
    ((∃ a ∈ saved, a.id = article.id) →
      (∀ a ∈ handleSave article saved, a.id ≠ article.id) ∧
      (∃ a ∈ handleSave article (handleSave article saved), a.id = article.id)) := by
  constructor
  · intro h
    rw [handleSave_of_not_saved article saved h]
    rw [handleSave_of_saved article (saved ++ [article])
      ⟨article, List.mem_append_right saved (List.mem_singleton_self article), rfl⟩]
    rw [List.filter_append]
    have h1 : saved.filter (fun a => a.id != article.id) = saved := by
      rw [List.filter_eq_self]
      intro a ha
      simpa using h a ha
    have h2 : [article].filter (fun a => a.id != article.id) = [] := by simp
    rw [h1, h2, List.append_nil]
  · intro h
    have hfilter : ∀ a ∈ handleSave article saved, a.id ≠ article.id := by
      rw [handleSave_of_saved article saved h]
      intro a ha
      have := List.of_mem_filter ha
      simpa using this
    refine ⟨hfilter, ?_⟩
    rw [handleSave_of_not_saved article (handleSave article saved) hfilter]
    exact ⟨article, List.mem_append_right _ (List.mem_singleton_self article), rfl⟩

/-- C8 witness: toggling an absent article twice restores the concrete saved
list, and toggling a present one removes then restores membership. -/
theorem handleSave_double_toggle_witness :
    handleSave (mkArticle 2) (handleSave (mkArticle 2) [mkArticle 1]) = [mkArticle 1] ∧
    ((∀ a ∈ handleSave (mkArticle 1) [mkArticle 1], a.id ≠ (mkArticle 1).id) ∧
     (∃ a ∈ handleSave (mkArticle 1) (handleSave (mkArticle 1) [mkArticle 1]),
        a.id = (mkArticle 1).id)) :=
  ⟨(handleSave_double_toggle (mkArticle 2) [mkArticle 1]).1 (by decide),
   (handleSave_double_toggle (mkArticle 1) [mkArticle 1]).2 ⟨mkArticle 1, by decide, rfl⟩⟩

/-- C2 counterexample: uniqueness of ids in the displayed list is NOT
preserved by dismiss-and-replace for every value the fetch may return. With
the unique-id list of articles 1 and 2 on display, dismissing article 1 while
the random fetch returns an article with id 2 yields a list whose ids are
duplicated. -/
theorem dismiss_unique_ids_counterexample :
    (([mkArticle 1, mkArticle 2].map Article.id).Nodup) ∧
    ¬ (((handleDismissUpdate 1 [mkArticle 2] [mkArticle 1, mkArticle 2]).map
        Article.id).Nodup) := by decide

/-- C2 (amended): dismiss-and-replace preserves uniqueness of ids provided
the replacement article's id differs from the id of every retained
(non-dismissed) entry of the displayed list. -/
theorem dismiss_preserves_unique_ids (articleId : Nat) (repl : Article)
    (rest prev : List Article)
    (h1 : (prev.map Article.id).Nodup)
    (h2 : ∀ a ∈ prev, a.id ≠ articleId → repl.id ≠ a.id) :
    ((handleDismissUpdate articleId (repl :: rest) prev).map Article.id).Nodup := by
  unfold handleDismissUpdate
  rw [List.map_map]
  have hfun : (Article.id ∘ fun a => if a.id == articleId then repl else a) =
      fun a : Article => if a.id = articleId then repl.id else a.id := by
    funext a
    by_cases hc : a.id = articleId <;> simp [hc]
  rw [hfun]
  have hinj := List.inj_on_of_nodup_map h1
  refine List.Nodup.map_on ?_ (h1.of_map)
  intro x hx y hy hxy
  by_cases hxc : x.id = articleId
  · by_cases hyc : y.id = articleId
    · exact hinj hx hy (by rw [hxc, hyc])
    · rw [if_pos hxc, if_neg hyc] at hxy
      exact absurd hxy (h2 y hy hyc)
  · by_cases hyc : y.id = articleId
    · rw [if_neg hxc, if_pos hyc] at hxy
      exact absurd hxy.symm (h2 x hx hxc)
    · rw [if_neg hxc, if_neg hyc] at hxy
      exact hinj hx hy hxy

/-- C2 witness: with a fresh replacement id, dismissing keeps ids unique. -/
theorem dismiss_preserves_unique_ids_witness :
    (([mkArticle 1, mkArticle 2].map Article.id).Nodup) ∧
    ((handleDismissUpdate 1 [mkArticle 9] [mkArticle 1, mkArticle 2]).map
      Article.id).Nodup :=
  ⟨by decide,
   dismiss_preserves_unique_ids 1 (mkArticle 9) [] [mkArticle 1, mkArticle 2]
     (by decide) (by decide)⟩

/-- A concrete App state in cards view on the discover tab, for witnesses and
counterexamples. -/
def s0 : AppState :=
  { articles := [mkArticle 1, mkArticle 2], savedArticles := [],
    loading := false, error := none, shuffling := false,
    activeTab := Tab.discover, viewMode := ViewMode.cards, singleIndex := 0 }

/-- C3: in the multi-card modes, dismiss replaces exactly the entries whose id
equals the dismissed id by the whole fetched replacement value, every other
entry is unchanged and keeps its position (stated pointwise over every index,
with the length preserved), and an empty replacement fetch leaves the
displayed list unchanged; the run of handleDismiss in a non-single view mode
updates the articles exactly this way. -/
theorem handleDismiss_frame (articleId : Nat) (repl : Article)
    (rest prev : List Article) (s : AppState) :
    handleDismissUpdate articleId [] prev = prev ∧
    (handleDismissUpdate articleId (repl :: rest) prev).length = prev.length ∧
    (∀ i : Nat, (handleDismissUpdate articleId (repl :: rest) prev)[i]? =
      (prev[i]?).map (fun a => if a.id == articleId then repl else a)) ∧
    (s.viewMode ≠ ViewMode.single →
      ∀ fetched : List Article,
        (handleDismissRun articleId (Except.ok ()) (Except.ok fetched) s).1.articles =
          handleDismissUpdate articleId fetched s.articles) := by
  refine ⟨rfl, by simp [handleDismissUpdate], ?_, ?_⟩
  · intro i
    simp [handleDismissUpdate]
  · intro hvm fetched
    simp [handleDismissRun, hvm]

/-- C3 witness: dismissing article 1 from the concrete cards-view state with a
concrete replacement changes exactly the dismissed slot, and an empty fetch
changes nothing. -/
theorem handleDismiss_frame_witness :
    handleDismissUpdate 1 [] [mkArticle 1, mkArticle 2] = [mkArticle 1, mkArticle 2] ∧
    (handleDismissUpdate 1 [mkArticle 9] [mkArticle 1, mkArticle 2])[0]? =
      some (mkArticle 9) ∧
    (handleDismissRun 1 (Except.ok ()) (Except.ok [mkArticle 9]) s0).1.articles =
      handleDismissUpdate 1 [mkArticle 9] s0.articles := by
  refine ⟨(handleDismiss_frame 1 (mkArticle 9) [] [mkArticle 1, mkArticle 2] s0).1, ?_, ?_⟩
  · rw [(handleDismiss_frame 1 (mkArticle 9) [] [mkArticle 1, mkArticle 2] s0).2.2.1 0]
    decide
  · exact (handleDismiss_frame 1 (mkArticle 9) [] [mkArticle 1, mkArticle 2] s0).2.2.2
      (by decide) [mkArticle 9]

/-- C4 counterexample: a failure of the dismiss request does NOT surface as a
user-visible error state. In the concrete cards-view state whose error field
is null, a failing dismiss POST leaves the whole state unchanged — the catch
block only logs to the console — so the error stays null and nothing is shown
to the user. -/
theorem dismiss_failure_silent_counterexample :
    (handleDismissRun 1 (Except.error "Failed to fetch") (Except.ok []) s0).1 = s0 ∧
    s0.error = none :=
  ⟨rfl, rfl⟩

/-- C4 (amended): a failure of the random-articles fetch surfaces as a single
user-visible error message — the error field is set, the render shows the
error screen whose Try Again button is the manual retry, and exactly one
request was issued (no automatic retry) — while a failure of the dismiss
request is caught and only logged, leaving the whole App state (its error
field included) unchanged. -/
theorem error_handling_behaviour (msg dmsg : String) (s : AppState)
    (articleId : Nat) (fOut : Except String (List Article))
    (showAdmin showAgent : Bool) :
    (fetchArticlesRun (Except.error msg) s).1.error = some msg ∧
    (fetchArticlesRun (Except.error msg) s).1.loading = false ∧
    appScreen (fetchArticlesRun (Except.error msg) s).1 showAdmin showAgent =
      Screen.errorRetryScreen msg ∧
    (fetchArticlesRun (Except.error msg) s).2 =
      [Request.randomGet (fetchCount s.viewMode)] ∧
    (handleDismissRun articleId (Except.error dmsg) fOut s).1 = s := by
  refine ⟨rfl, rfl, ?_, rfl, rfl⟩
  simp [appScreen, fetchArticlesRun]

/-- C6: handleDismiss always issues the POST to the dismiss endpoint first,
and the only other request it can issue is a single GET for one random
replacement article, strictly after the POST; the replacement fetch never
precedes the dismiss POST. -/
theorem dismiss_request_order (articleId : Nat) (dOut : Except String Unit)
    (fOut : Except String (List Article)) (s : AppState) :
    ((handleDismissRun articleId dOut fOut s).2.head? =
      some (Request.dismissPost articleId)) ∧
    ((handleDismissRun articleId dOut fOut s).2 = [Request.dismissPost articleId] ∨
     (handleDismissRun articleId dOut fOut s).2 =
       [Request.dismissPost articleId, Request.randomGet 1]) := by
  cases dOut with
  | error e => exact ⟨rfl, Or.inl rfl⟩
  | ok u =>
    cases fOut with
    | error e => exact ⟨rfl, Or.inr rfl⟩
    | ok fetched =>
      by_cases hvm : s.viewMode = ViewMode.single <;>
        simp [handleDismissRun, hvm]

/-- The empty localStorage, for witnesses. -/
def emptyStore : Store := fun _ => none

/-- C5: after a save toggle and after the initial mount load, the persistence
effect leaves the storage with the single key 'readrabbit_saved' mapped to the
JSON serialization of the current saved set, and every other storage key
untouched. -/
theorem persistence_invariant (article : Article) (sa : List Article)
    (store : Store) (decode : String → List Article) :
    (getItem savedKey (handleSaveStep article sa store).2 =
       some (stringifySaved (handleSaveStep article sa store).1) ∧
     ∀ k : String, k ≠ savedKey → (handleSaveStep article sa store).2 k = store k) ∧
    (getItem savedKey (mountEffects decode store).2 =
       some (stringifySaved (mountEffects decode store).1) ∧
     ∀ k : String, k ≠ savedKey → (mountEffects decode store).2 k = store k) := by
  refine ⟨⟨?_, ?_⟩, ⟨?_, ?_⟩⟩
  · simp [handleSaveStep, persistSavedEffect, setItem, getItem]
  · intro k hk
    simp [handleSaveStep, persistSavedEffect, setItem, hk]
  · simp [mountEffects, persistSavedEffect, setItem, getItem]
  · intro k hk
    simp [mountEffects, persistSavedEffect, setItem, hk]

/-- C5 witness: saving one concrete article into the empty storage writes the
serialization under the saved key and leaves a different key absent. -/
theorem persistence_invariant_witness :
    getItem savedKey (handleSaveStep (mkArticle 1) [] emptyStore).2 =
      some (stringifySaved (handleSaveStep (mkArticle 1) [] emptyStore).1) ∧
    (handleSaveStep (mkArticle 1) [] emptyStore).2 "other" = none := by
  refine ⟨(persistence_invariant (mkArticle 1) [] emptyStore (fun _ => [])).1.1, ?_⟩
  rw [(persistence_invariant (mkArticle 1) [] emptyStore (fun _ => [])).1.2 "other"
    (by decide)]
  rfl

/-- C9: the saved tab's single-view access is always in bounds: for a
non-empty displayed list and any navigation index, the accessed position
singleIndex % length is strictly below the length, so the element lookup
succeeds. -/
theorem savedSingleView_in_bounds (arts : List Article) (singleIndex : Nat)
    (h : arts ≠ []) :
    savedSingleViewIndex arts singleIndex < arts.length ∧
    (savedSingleViewAccess arts singleIndex).isSome = true := by
  have hlen : 0 < arts.length := List.length_pos.mpr h
  have hlt : singleIndex % arts.length < arts.length := Nat.mod_lt _ hlen
  refine ⟨hlt, ?_⟩
  unfold savedSingleViewAccess savedSingleViewIndex
  rw [List.getElem?_eq_getElem hlt]
  rfl

/-- C9 witness: a navigation index far past the end of a one-element saved
list still lands in bounds. -/
theorem savedSingleView_in_bounds_witness :
    savedSingleViewIndex [mkArticle 1] 5 < [mkArticle 1].length ∧
    (savedSingleViewAccess [mkArticle 1] 5).isSome = true :=
  savedSingleView_in_bounds [mkArticle 1] 5 (by decide)

/-- A concrete AdminPage state with the blank manual form, and one with a
filled form, for the C10 witness. -/
def adminS0 : AdminState :=
  { url := "", loading := false, error := none, success := none,
    articles := [], stats := none, manualForm := emptyArticle }

/-- A concrete AdminPage state whose manual form has a non-blank title and
url. -/
def adminS1 : AdminState :=
  { adminS0 with manualForm := { emptyArticle with title := "T", url := "U" } }

/-- C10: handleManualSave validates before any effect: when the form's title
or url is blank after trimming, it issues no request and only sets the error
message 'Title and URL are required' (the articles list, stats and form are
untouched); when both are non-blank, the first request issued is the POST to
/articles carrying the form. -/
theorem handleManualSave_validates (postOutcome : Except String Unit)
    (s : AdminState) :
    (jsTrim s.manualForm.title = "" ∨ jsTrim s.manualForm.url = "" →
      handleManualSave postOutcome s =
        ({ s with error := some "Title and URL are required" }, [])) ∧
    (jsTrim s.manualForm.title ≠ "" → jsTrim s.manualForm.url ≠ "" →
      (handleManualSave postOutcome s).2.head? =
        some (AdminRequest.postArticles
          { s.manualForm with read_time := orNull s.manualForm.read_time })) := by
  constructor
  · intro h
    unfold handleManualSave
    rw [if_pos h]
  · intro h1 h2
    have hne : ¬(jsTrim s.manualForm.title = "" ∨ jsTrim s.manualForm.url = "") := by
      rintro (hc | hc)
      · exact h1 hc
      · exact h2 hc
    unfold handleManualSave
    rw [if_neg hne]
    cases postOutcome <;> rfl

/-- C10 witness: the blank concrete form only sets the error and issues no
request; the filled concrete form leads with the POST to /articles. -/
theorem handleManualSave_validates_witness :
    handleManualSave (Except.ok ()) adminS0 =
      ({ adminS0 with error := some "Title and URL are required" }, []) ∧
    (handleManualSave (Except.ok ()) adminS1).2.head? =
      some (AdminRequest.postArticles
        { adminS1.manualForm with read_time := orNull adminS1.manualForm.read_time }) :=
  ⟨(handleManualSave_validates (Except.ok ()) adminS0).1 (Or.inl (by decide)),
   (handleManualSave_validates (Except.ok ()) adminS1).2 (by decide) (by decide)⟩
